import Mathlib

/-!
Verification development for the right-click actions toolkit.

The repository is a QGIS plugin: ~30 independently authored action strategies
(`src/actions/*.py`) registered against a shared framework (`BaseAction`).
Each action declares a capability descriptor in its `__init__` (an
`action_id`, a scope, and sets of supported click/geometry type tags) via
`set_action_scope` / `set_supported_scopes` / `set_supported_click_types` /
`set_supported_geometry_types`, and mutating actions drive a per-layer
edit-transaction wrapper (`handle_edit_mode` / `commit_changes` /
`rollback_changes` / `exit_edit_mode`).

This file embeds, shallowly:
  * the capability descriptors of all 31 shipped actions, transcribed
    literally from each action's `__init__`;
  * the edit-transaction wrapper and layer edit-session state (the wrapper
    lives in `base_action.py`, which is not part of the provided sources;
    those definitions are modelled from the specification and are marked as
    such in their doc comments);
  * the post-validation control flow of the three mutating strategies cited
    by the spec (`RotatePolygonAction.execute`, `SmoothPolygonAction.execute`,
    `MovePointAction._move_feature_to_geometry`), with provider outcomes
    (`startEditing`, `updateFeature`, `addFeature`, `commitChanges`) and
    dialog outcomes as explicit environment inputs;
  * the fixed-sample nearest-point search of
    `SnapPointToPolygonAction._find_closest_point_on_boundary` and the
    analogous inner loop of `SnapPointToLineAction._find_closest_line`;
  * the smoothing-method router `SmoothPolygonAction.smooth_geometry`;
  * `MovePointAction.format_message_template` together with a model of the
    fragment of Python `str.format` it invokes.
-/

namespace RCA

/-- Capability descriptor of one registered action: the static metadata each
action assigns in its `__init__` (`action_id`, scope, supported scopes and
the two geometry-tag sets, `enabled`).  Tag sets are kept as lists in the
declaration order of the Python source. -/
structure BAction where
  actionId : String
  scope : String
  supportedScopes : List String
  supportedClickTypes : List String
  supportedGeometryTypes : List String
  enabled : Bool
deriving Repr, DecidableEq

/-- `src/actions/measure_distance.py` `__init__`. -/
def measureDistance : BAction :=
  ⟨"measure_distance", "universal", ["universal"], ["universal"], ["universal"], true⟩

/-- `src/actions/merge_polygon_layer.py` `__init__`. -/
def mergePolygonLayer : BAction :=
  ⟨"merge_polygon_layer", "layer", ["layer"], ["polygon", "multipolygon"],
    ["polygon", "multipolygon"], true⟩

/-- `src/actions/move_line_with_click.py` `__init__`. -/
def moveLineWithClick : BAction :=
  ⟨"move_line_with_click", "feature", ["feature"], ["line", "multiline"],
    ["line", "multiline"], true⟩

/-- `src/actions/move_point_by_distance_direction.py` `__init__`. -/
def movePointByDistanceDirection : BAction :=
  ⟨"move_point_by_distance_direction", "feature", ["feature"], ["point", "multipoint"],
    ["point", "multipoint"], true⟩

/-- `src/actions/move_point_to_coordinates.py` `__init__`. -/
def movePointToCoordinates : BAction :=
  ⟨"move_point_to_coordinates", "feature", ["feature"], ["point", "multipoint"],
    ["point", "multipoint"], true⟩

/-- `src/actions/move_point_with_click.py` `__init__`. -/
def movePointWithClick : BAction :=
  ⟨"move_point_with_click", "feature", ["feature"], ["point", "multipoint"],
    ["point", "multipoint"], true⟩

/-- `src/actions/move_polygon_by_distance_direction.py` `__init__`. -/
def movePolygonByDistanceDirection : BAction :=
  ⟨"move_polygon_by_distance_direction", "feature", ["feature"], ["polygon", "multipolygon"],
    ["polygon", "multipolygon"], true⟩

/-- `src/actions/open_coordinates_in_map.py` `__init__` (lines 27-33): scope
`universal`, click types `['universal']`, geometry types the six concrete
categories plus `'canvas'`. -/
def openCoordinatesInMap : BAction :=
  ⟨"open_coordinates_in_map", "universal", ["universal"], ["universal"],
    ["point", "multipoint", "line", "multiline", "polygon", "multipolygon", "canvas"], true⟩

/-- `src/actions/rotate_line.py` `__init__`. -/
def rotateLine : BAction :=
  ⟨"rotate_line", "feature", ["feature"], ["line", "multiline"], ["line", "multiline"], true⟩

/-- `src/actions/rotate_polygon.py` `__init__`. -/
def rotatePolygon : BAction :=
  ⟨"rotate_polygon", "feature", ["feature"], ["polygon", "multipolygon"],
    ["polygon", "multipolygon"], true⟩

/-- `src/actions/scale_line.py` `__init__`. -/
def scaleLine : BAction :=
  ⟨"scale_line", "feature", ["feature"], ["line", "multiline"], ["line", "multiline"], true⟩

/-- `src/actions/scale_line_layer.py` `__init__`. -/
def scaleLineLayer : BAction :=
  ⟨"scale_line_layer", "layer", ["layer"], ["line", "multiline"], ["line", "multiline"], true⟩

/-- `src/actions/see_info_polygon.py` `__init__`. -/
def seeInfoPolygon : BAction :=
  ⟨"see_info_polygon", "feature", ["feature"], ["polygon", "multipolygon"],
    ["polygon", "multipolygon"], true⟩

/-- `src/actions/show_line_layer_segment_lengths.py` `__init__`. -/
def showLineLayerSegmentLengths : BAction :=
  ⟨"show_line_layer_segment_lengths", "layer", ["layer"], ["line", "multiline"],
    ["line", "multiline"], true⟩

/-- `src/actions/show_line_segment_lengths.py` `__init__`. -/
def showLineSegmentLengths : BAction :=
  ⟨"show_line_segment_lengths", "feature", ["feature"], ["line", "multiline"],
    ["line", "multiline"], true⟩

/-- `src/actions/show_polygon_area_layer.py` `__init__`. -/
def showPolygonAreaLayer : BAction :=
  ⟨"show_polygon_area_layer", "feature", ["feature"], ["polygon", "multipolygon"],
    ["polygon", "multipolygon"], true⟩

/-- `src/actions/show_polygon_layer_angles.py` `__init__`. -/
def showPolygonLayerAngles : BAction :=
  ⟨"show_polygon_layer_angles", "layer", ["layer"], ["polygon", "multipolygon"],
    ["polygon", "multipolygon"], true⟩

/-- `src/actions/show_polygon_layer_areas.py` `__init__`. -/
def showPolygonLayerAreas : BAction :=
  ⟨"show_polygon_layer_areas", "layer", ["layer"], ["polygon", "multipolygon"],
    ["polygon", "multipolygon"], true⟩

/-- `src/actions/show_polygon_layer_side_lengths.py` `__init__`. -/
def showPolygonLayerSideLengths : BAction :=
  ⟨"show_polygon_layer_side_lengths", "layer", ["layer"], ["polygon", "multipolygon"],
    ["polygon", "multipolygon"], true⟩

/-- `src/actions/smooth_polygon.py` `__init__` (lines 108-125). -/
def smoothPolygon : BAction :=
  ⟨"smooth_polygon", "feature", ["feature"], ["polygon", "multipolygon"],
    ["polygon", "multipolygon"], true⟩

/-- `src/actions/snap_point_to_line.py` `__init__`. -/
def snapPointToLine : BAction :=
  ⟨"snap_point_to_line", "feature", ["feature"], ["point", "multipoint"],
    ["point", "multipoint"], true⟩

/-- `src/actions/snap_point_to_polygon.py` `__init__`. -/
def snapPointToPolygon : BAction :=
  ⟨"snap_point_to_polygon", "feature", ["feature"], ["point", "multipoint"],
    ["point", "multipoint"], true⟩

/-- `src/actions/split_point_layer_by_attribute.py` `__init__`. -/
def splitPointLayerByAttribute : BAction :=
  ⟨"split_point_layer_by_attribute", "layer", ["layer"], ["point", "multipoint"],
    ["point", "multipoint"], true⟩

/-- `src/actions/take_canvas_screenshot.py` `__init__` (lines 21-38). -/
def takeCanvasScreenshot : BAction :=
  ⟨"take_canvas_screenshot", "universal", ["universal"], ["universal"], ["universal"], true⟩

/-- `src/actions/toggle_all_layers.py` `__init__`. -/
def toggleAllLayers : BAction :=
  ⟨"toggle_all_layers", "universal", ["universal"], ["universal"], ["universal"], true⟩

/-- `src/actions/toggle_point_labels.py` `__init__`. -/
def togglePointLabels : BAction :=
  ⟨"toggle_point_labels", "layer", ["layer"], ["point", "multipoint"],
    ["point", "multipoint"], true⟩

/-- `src/actions/zoom_to_line.py` `__init__`. -/
def zoomToLine : BAction :=
  ⟨"zoom_to_line", "feature", ["feature"], ["line", "multiline"], ["line", "multiline"], true⟩

/-- `src/actions/zoom_to_line_layer.py` `__init__`. -/
def zoomToLineLayer : BAction :=
  ⟨"zoom_to_line_layer", "layer", ["layer"], ["line", "multiline"], ["line", "multiline"], true⟩

/-- `src/actions/zoom_to_point.py` `__init__`. -/
def zoomToPoint : BAction :=
  ⟨"zoom_to_point", "feature", ["feature"], ["point", "multipoint"],
    ["point", "multipoint"], true⟩

/-- `src/actions/zoom_to_polygon.py` `__init__`. -/
def zoomToPolygon : BAction :=
  ⟨"zoom_to_polygon", "feature", ["feature"], ["polygon", "multipolygon"],
    ["polygon", "multipolygon"], true⟩

/-- `src/actions/zoom_to_visible_data_layers.py` `__init__`. -/
def zoomToVisibleDataLayers : BAction :=
  ⟨"zoom_to_visible_data_layers", "universal", ["universal"], ["universal"], ["universal"], true⟩

/-- All 31 actions instantiated at module level for automatic discovery
(each `src/actions/*.py` file ends with a global instance marked
`REQUIRED: Create global instance for automatic discovery`). -/
def allActions : List BAction :=
  [measureDistance, mergePolygonLayer, moveLineWithClick, movePointByDistanceDirection,
   movePointToCoordinates, movePointWithClick, movePolygonByDistanceDirection,
   openCoordinatesInMap, rotateLine, rotatePolygon, scaleLine, scaleLineLayer,
   seeInfoPolygon, showLineLayerSegmentLengths, showLineSegmentLengths,
   showPolygonAreaLayer, showPolygonLayerAngles, showPolygonLayerAreas,
   showPolygonLayerSideLengths, smoothPolygon, snapPointToLine, snapPointToPolygon,
   splitPointLayerByAttribute, takeCanvasScreenshot, toggleAllLayers, togglePointLabels,
   zoomToLine, zoomToLineLayer, zoomToPoint, zoomToPolygon, zoomToVisibleDataLayers]

/-- The fixed closed vocabulary of geometry-category tags named by the spec:
the six concrete categories plus the wildcard `universal`. -/
def geometryTagVocabulary : List String :=
  ["point", "multipoint", "line", "multiline", "polygon", "multipolygon", "universal"]

/-- The six concrete geometry categories (the vocabulary without the
`universal` wildcard). -/
def concreteGeometryTags : List String :=
  ["point", "multipoint", "line", "multiline", "polygon", "multipolygon"]

/-- The spec's scope/type-set invariant on a capability descriptor: a
`universal`-scope action must declare both tag sets as exactly
`{universal}`, and a `layer`- or `feature`-scope action must declare at
least one concrete geometry category in each of the two tag sets. -/
def scopeTypeInvariant (a : BAction) : Bool :=
  (if a.scope = "universal" then
    a.supportedClickTypes = ["universal"] && a.supportedGeometryTypes = ["universal"]
  else true) &&
  (if a.scope = "layer" || a.scope = "feature" then
    a.supportedClickTypes.any (fun t => concreteGeometryTags.contains t) &&
    a.supportedGeometryTypes.any (fun t => concreteGeometryTags.contains t)
  else true)

/-- All geometry-category tags declared by a descriptor (click types and
geometry types together). -/
def declaredTags (a : BAction) : List String :=
  a.supportedClickTypes ++ a.supportedGeometryTypes

/-- Whether every tag a descriptor declares lies in the closed vocabulary. -/
def tagsInVocabulary (a : BAction) : Bool :=
  (declaredTags a).all (fun t => geometryTagVocabulary.contains t)

/-!  Edit-session state and the edit-transaction wrapper.

A vector layer is modelled by whether it is in an edit session, the feature
geometries persisted at the provider, and the in-session working set
(staged but uncommitted geometries).  Geometry values are abstract (`Int`).
Outside an edit session the working set and the persisted set coincide
(`wfLayer`). -/

/-- Edit-session view of one vector layer: `editing` is `layer.isEditable()`,
`persisted` the geometries the data provider holds, `working` the current
in-session view (staged edits included). -/
structure LayerState where
  editing : Bool
  persisted : List Int
  working : List Int
deriving Repr, DecidableEq

/-- Well-formedness of a layer state: outside an edit session there are no
staged edits, so the working set equals the persisted set. -/
def wfLayer (s : LayerState) : Prop :=
  s.editing = false → s.working = s.persisted

instance (s : LayerState) : Decidable (wfLayer s) := by
  unfold wfLayer; infer_instance

/-- Modelled from the spec: `BaseAction.handle_edit_mode` — `base_action.py`
is not among the provided sources.  Spec §4.4 `enter`: if the layer is
already editable, record `was_editable_before = true`,
`entered_by_wrapper = false`; otherwise attempt to start an edit session
(`canEdit` is whether the provider allows it), on failure signal an
`EditModeError` and stop.  Callers receive `none` on error (they test
`edit_result[0] is None`), otherwise
`some (was_editable_before, entered_by_wrapper)`. -/
def handle_edit_mode (canEdit : Bool) (s : LayerState) :
    Option (Bool × Bool) × LayerState :=
  if s.editing then (some (true, false), s)
  else if canEdit then (some (false, true), { s with editing := true })
  else (none, s)

/-- Model of QGIS `QgsVectorLayer.updateFeature` for the tracked feature
(index 0): succeeds only inside an edit session and when the provider
accepts the update (`updateOk`), staging the new geometry in the working
set; on failure the layer is untouched. -/
def updateFeature (updateOk : Bool) (g : Int) (s : LayerState) :
    Bool × LayerState :=
  if s.editing && updateOk then (true, { s with working := s.working.set 0 g })
  else (false, s)

/-- Model of QGIS `QgsVectorLayer.addFeature`: succeeds only inside an edit
session and when the provider accepts the insert (`addOk`), appending the
new feature's geometry to the working set. -/
def addFeature (addOk : Bool) (g : Int) (s : LayerState) :
    Bool × LayerState :=
  if s.editing && addOk then (true, { s with working := s.working ++ [g] })
  else (false, s)

/-- Modelled from the spec: `BaseAction.commit_changes` — `base_action.py` is
not among the provided sources.  Spec §4.4 `commit`: attempt to persist
pending edits; on failure report it (distinctly from a mutation failure) and
do NOT roll back automatically.  Per spec Scenario E a successful commit
leaves a pre-existing edit session open, so `editing` is unchanged. -/
def commit_changes (commitOk : Bool) (s : LayerState) : Bool × LayerState :=
  if commitOk then (true, { s with persisted := s.working })
  else (false, s)

/-- Modelled from the spec: `BaseAction.rollback_changes` — `base_action.py`
is not among the provided sources.  Spec §4.4 `rollback`: discards pending
edits unconditionally; always safe to call even if nothing is pending. -/
def rollback_changes (s : LayerState) : LayerState :=
  { s with working := s.persisted }

/-- Modelled from the spec: `BaseAction.exit_edit_mode` — `base_action.py` is
not among the provided sources.  Spec §4.4 `exit`: if `edit_mode_entered` is
true, end the edit session the wrapper started (per the glossary an edit
session buffers changes until committed, so ending it uncommitted discards
the staged working set); if false, never close a session the wrapper did not
open. -/
def exit_edit_mode (entered : Bool) (s : LayerState) : LayerState :=
  if entered then { s with editing := false, working := s.persisted } else s

/-!  The mutating strategies.

Provider/dialog outcomes that are runtime inputs of the Python code become
explicit environment fields.  A `Trace` records the externally observable
steps a run took: whether the wrapper entered edit mode for this run,
whether `rollback_changes` was ever called, whether the `finally`-guarded
`exit_edit_mode` call was reached, and the error messages shown. -/

/-- Outcomes of the provider and of the geometry library for one run:
whether `startEditing` would succeed, whether `updateFeature` / `addFeature`
/ `commitChanges` are accepted, and whether the geometry computation inside
the `try` block raises an exception. -/
structure ProviderEnv where
  canEdit : Bool
  updateOk : Bool
  addOk : Bool
  commitOk : Bool
  geomRaises : Bool
deriving Repr, DecidableEq

/-- The three behavior settings every mutating strategy reads
(`handle_edit_mode_automatically`, `auto_commit_changes`,
`rollback_on_error`), already type-converted. -/
structure EditSettings where
  handleEditMode : Bool
  autoCommit : Bool
  rollbackOnError : Bool
deriving Repr, DecidableEq

/-- Observable steps of one strategy run. -/
structure Trace where
  entered : Bool := false
  rolledBack : Bool := false
  exitReached : Bool := false
  errors : List String := []
deriving Repr, DecidableEq

/-- A detected feature as the strategies consume it: whether
`feature.geometry()` is non-null and non-empty, its geometry category tag,
and its abstract geometry value. -/
structure FeatureG where
  hasGeom : Bool
  geomType : String
  geom : Int
deriving Repr, DecidableEq

/-- The context fields the cited strategies read: `detected_features` and
(for the move action) whether `canvas` is present. -/
structure ClickCtx where
  detectedFeatures : List FeatureG
  canvasPresent : Bool
deriving Repr, DecidableEq

/-- Dialog outcomes for one run: whether the input dialog(s) were accepted
and whether an optional confirmation prompt was accepted. -/
structure DialogEnv where
  accepted : Bool
  confirmAccepted : Bool
deriving Repr, DecidableEq

/-- The commit step shared by the three strategies: when both
`auto_commit_changes` and `handle_edit_mode_automatically` are set, call
`commit_changes` and return early (with the failure reported by the wrapper)
when it fails. -/
def commitPhase (env : ProviderEnv) (st : EditSettings) (s : LayerState) :
    LayerState × Trace :=
  if st.autoCommit && st.handleEditMode then
    match commit_changes env.commitOk s with
    | (false, s2) => (s2, { errors := ["Failed to commit changes"] })
    | (true, s2) => (s2, {})
  else (s, {})

/-- Shared shape of the `handle_edit_mode` / `try` / `finally` scaffold of
the three strategies (rotate_polygon.py lines 247-296, smooth_polygon.py
lines 440-517, move_point_with_click.py lines 437-514): when
`handle_edit_mode_automatically` is set, enter via the wrapper and return on
`EditModeError`; run the body; and in `finally` call
`exit_edit_mode(layer, edit_mode_entered)` (the `finally` block itself is
guarded by the same setting in all three files). -/
def runWithEditSession (st : EditSettings) (canEdit : Bool)
    (body : LayerState → LayerState × Trace) (s : LayerState) :
    LayerState × Trace :=
  if st.handleEditMode then
    match handle_edit_mode canEdit s with
    | (none, s1) => (s1, { errors := ["Cannot enter edit mode"] })
    | (some (_wasIn, entered), s1) =>
      let r := body s1
      (exit_edit_mode entered r.1,
       { r.2 with entered := entered, exitReached := true })
  else
    body s

/-- Body of the `try`/`except` in `RotatePolygonAction.execute` (lines
258-292): an exception in the geometry calls (`env.geomRaises`) jumps to the
`except` branch, which reports and — only when `rollback_on_error` and
`handle_edit_mode_automatically` are both set — calls `rollback_changes`;
otherwise stage the rotated geometry via `layer.updateFeature`, returning on
failure, then run the commit step. -/
def rotateTryBody (env : ProviderEnv) (st : EditSettings) (newGeom : Int)
    (s : LayerState) : LayerState × Trace :=
  if env.geomRaises then
    if st.rollbackOnError && st.handleEditMode then
      (rollback_changes s,
       { rolledBack := true, errors := ["Failed to rotate polygon"] })
    else (s, { errors := ["Failed to rotate polygon"] })
  else
    match updateFeature env.updateOk newGeom s with
    | (false, s1) => (s1, { errors := ["Failed to update polygon geometry"] })
    | (true, s1) => commitPhase env st s1

/-- `RotatePolygonAction.execute` (lines 174-296) from the
`detected_features` check onward, with settings already type-converted and
the rotated geometry value `newGeom` standing for the result of
`rotated_geometry.rotate(rotation_angle, centroid)`. -/
def rotateExecute (env : ProviderEnv) (st : EditSettings)
    (confirmBefore : Bool) (dlg : DialogEnv) (ctx : ClickCtx) (newGeom : Int)
    (s : LayerState) : LayerState × Trace :=
  match ctx.detectedFeatures with
  | [] => (s, { errors := ["No polygon features found at this location"] })
  | f :: _ =>
    if !f.hasGeom then (s, { errors := ["Feature has no valid geometry"] })
    else if !(f.geomType = "polygon" || f.geomType = "multipolygon") then
      (s, { errors := ["This action only works with polygon features"] })
    else if !dlg.accepted then (s, {})
    else if confirmBefore && !dlg.confirmAccepted then (s, {})
    else runWithEditSession st env.canEdit (rotateTryBody env st newGeom) s

/-- Body of the `try`/`except` in `SmoothPolygonAction.execute` (lines
451-512): smooth the geometry (`smoothedValid` is whether the result is
non-null and non-empty), then either add a smoothed copy
(`layer.addFeature`) or update the original (`layer.updateFeature`),
returning on failure, then run the commit step; an exception jumps to the
`except` branch, which reports and conditionally rolls back. -/
def smoothTryBody (env : ProviderEnv) (st : EditSettings)
    (smoothedValid : Bool) (createCopy : Bool) (newGeom : Int)
    (s : LayerState) : LayerState × Trace :=
  if env.geomRaises then
    if st.rollbackOnError && st.handleEditMode then
      (rollback_changes s,
       { rolledBack := true, errors := ["Failed to smooth polygon"] })
    else (s, { errors := ["Failed to smooth polygon"] })
  else if !smoothedValid then
    (s, { errors := ["Smoothing resulted in invalid geometry"] })
  else if createCopy then
    match addFeature env.addOk newGeom s with
    | (false, s1) =>
      (s1, { errors := ["Failed to create smoothed copy of feature"] })
    | (true, s1) => commitPhase env st s1
  else
    match updateFeature env.updateOk newGeom s with
    | (false, s1) => (s1, { errors := ["Failed to update polygon geometry"] })
    | (true, s1) => commitPhase env st s1

/-- `SmoothPolygonAction.execute` (lines 290-517) from the
`detected_features` check onward; the unified/separate input dialogs are
collapsed into `dlg.accepted` and the resolved copy choice `createCopy`, and
`smoothedValid` stands for the `smoothed_geometry` validity test. -/
def smoothExecute (env : ProviderEnv) (st : EditSettings)
    (confirmBefore : Bool) (smoothedValid : Bool) (createCopy : Bool)
    (dlg : DialogEnv) (ctx : ClickCtx) (newGeom : Int) (s : LayerState) :
    LayerState × Trace :=
  match ctx.detectedFeatures with
  | [] => (s, { errors := ["No polygon features found at this location"] })
  | f :: _ =>
    if !f.hasGeom then (s, { errors := ["Feature has no valid geometry"] })
    else if !(f.geomType = "polygon" || f.geomType = "multipolygon") then
      (s, { errors := ["This action only works with polygon features"] })
    else if !dlg.accepted then (s, {})
    else if confirmBefore && !dlg.confirmAccepted then (s, {})
    else
      runWithEditSession st env.canEdit
        (smoothTryBody env st smoothedValid createCopy newGeom) s

/-- Body of the `try`/`except` in
`MovePointAction._move_feature_to_geometry` (lines 448-509): the original
point extraction may raise (`env.geomRaises`, jumping to the `except` branch
that reports and conditionally rolls back); otherwise either add a copy
(`layer.addFeature`) or update the original (`layer.updateFeature`),
returning on failure, then run the commit step. -/
def moveApplyTryBody (env : ProviderEnv) (st : EditSettings)
    (createCopy : Bool) (newGeom : Int) (s : LayerState) :
    LayerState × Trace :=
  if env.geomRaises then
    if st.rollbackOnError && st.handleEditMode then
      (rollback_changes s,
       { rolledBack := true, errors := ["Failed to move point feature"] })
    else (s, { errors := ["Failed to move point feature"] })
  else if createCopy then
    match addFeature env.addOk newGeom s with
    | (false, s1) => (s1, { errors := ["Failed to create copy of point"] })
    | (true, s1) => commitPhase env st s1
  else
    match updateFeature env.updateOk newGeom s with
    | (false, s1) => (s1, { errors := ["Failed to update point geometry"] })
    | (true, s1) => commitPhase env st s1

/-- `MovePointAction._move_feature_to_geometry` (lines 426-514): the
edit-mode scaffold around `moveApplyTryBody`, with the stored
`_current_settings` already resolved into `st` and `createCopy`. -/
def moveApply (env : ProviderEnv) (st : EditSettings) (createCopy : Bool)
    (newGeom : Int) (s : LayerState) : LayerState × Trace :=
  runWithEditSession st env.canEdit
    (moveApplyTryBody env st createCopy newGeom) s

/-- `MovePointAction.execute` (lines 283-424): the validation and dialog
phase.  It performs no edit-session operation itself; on success it
activates the point-moving map tool (the `true` result).  The dialog
resolution (lines 341-402) is collapsed into the `cancelled` input. -/
def moveExecute (ctx : ClickCtx) (cancelled : Bool) : Bool × Trace :=
  match ctx.detectedFeatures with
  | [] => (false, { errors := ["No point features found at this location"] })
  | f :: _ =>
    if !ctx.canvasPresent then
      (false, { errors := ["Map canvas not available"] })
    else if !f.hasGeom then
      (false, { errors := ["Feature has no valid geometry"] })
    else if cancelled then (false, {})
    else (true, {})

/-!  Fixed-sample nearest-point search (snap_point_to_polygon.py /
snap_point_to_line.py). -/

/-- Planar point, abstract stand-in for `QgsPointXY`. -/
abbrev PointQ := ℚ × ℚ

/-- Exterior ring of a polygon, abstracted to its length and its arc-length
interpolation function (`QgsLineString.length` / `interpolate(...).asPoint()`). -/
structure RingG where
  length : ℚ
  interp : ℚ → PointQ

/-- Polygon geometry as `_find_closest_point_on_boundary` consumes it:
`exteriorRing()` (possibly null) and `centroid().asPoint()`. -/
structure PolyG where
  exteriorRing : Option RingG
  centroid : PointQ

/-- Line geometry as the inner loop of `_find_closest_line` consumes it:
`length()`, `interpolate(...).asPoint()` and `vertexAt(0)`. -/
structure LineG where
  length : ℚ
  interp : ℚ → PointQ
  firstVertex : PointQ

/-- The running-minimum loop shared by
`SnapPointToPolygonAction._find_closest_point_on_boundary` (lines 469-481)
and `SnapPointToLineAction._find_closest_line` (lines 385-396): the
accumulator is the best sample so far with its distance (`none` plays
`closest = None, min_distance = float('inf')`), and a sample replaces it
only when strictly closer. -/
def closestSampleLoop (d : PointQ → ℚ) :
    List PointQ → Option (PointQ × ℚ) → Option (PointQ × ℚ)
  | [], acc => acc
  | q :: rest, none => closestSampleLoop d rest (some (q, d q))
  | q :: rest, some (b, m) =>
    if d q < m then closestSampleLoop d rest (some (q, d q))
    else closestSampleLoop d rest (some (b, m))

/-- The 501 sample points
`exterior_ring.interpolate(i / (num_samples - 1.0) * ring_length)` for
`i = 0 .. 500` (snap_point_to_polygon.py lines 472-476). -/
def boundarySamples (ring : RingG) : List PointQ :=
  (List.range 501).map
    (fun (i : Nat) => ring.interp ((i : ℚ) / 500 * ring.length))

/-- The positive-length branch of `_find_closest_point_on_boundary` (lines
466-486): the closest of the 501 ring samples; the ring-of-zero-length
`else` returns the fallback (centroid).  The sample list is nonempty, so the
loop's `none` case is unreachable; it is mapped to the same fallback. -/
def closestOnRing (d : PointQ → PointQ → ℚ) (p : PointQ) (ring : RingG)
    (fallback : PointQ) : PointQ :=
  if 0 < ring.length then
    match closestSampleLoop (d p) (boundarySamples ring) none with
    | some bm => bm.1
    | none => fallback
  else fallback

/-- `SnapPointToPolygonAction._find_closest_point_on_boundary` (lines
448-490) with the point-to-point distance `d` abstract
(`QgsPointXY.distance`): centroid when the exterior ring is absent,
otherwise the ring search with the centroid as fallback. -/
def findClosestPointOnBoundary (d : PointQ → PointQ → ℚ) (p : PointQ)
    (poly : PolyG) : PointQ :=
  match poly.exteriorRing with
  | none => poly.centroid
  | some ring => closestOnRing d p ring poly.centroid

/-- The 101 sample points `geometry.interpolate(i / 100.0 * line_length)` of
the inner loop of `SnapPointToLineAction._find_closest_line` (lines
388-391). -/
def lineSamples (g : LineG) : List PointQ :=
  (List.range 101).map
    (fun (i : Nat) => g.interp ((i : ℚ) / 100 * g.length))

/-- The closest-point-on-line computation inside
`SnapPointToLineAction._find_closest_line` (lines 379-399): the closest of
101 samples when the line has positive length, else `vertexAt(0)`. -/
def closestPointOnLine (d : PointQ → PointQ → ℚ) (p : PointQ) (g : LineG) :
    PointQ :=
  if 0 < g.length then
    match closestSampleLoop (d p) (lineSamples g) none with
    | some bm => bm.1
    | none => g.firstVertex
  else g.firstVertex

/-!  Smoothing-method router (smooth_polygon.py lines 246-288). -/

/-- Value-level model of `QgsGeometry(geometry)` copy construction: the copy
holds the same geometry value, and constructing it leaves the input
untouched. -/
def geomCopy (g : Int) : Int := g

/-- `SmoothPolygonAction.smooth_geometry_chaikin` (lines 246-266): copy the
input geometry, then apply the QGIS smoothing primitive (`smoothFn`,
abstract stand-in for `QgsGeometry.smooth`, which returns a new geometry) to
the copy. -/
def smooth_geometry_chaikin (smoothFn : Int → Nat → ℚ → Int) (g : Int)
    (iterations : Nat) (offset : ℚ) : Int :=
  smoothFn (geomCopy g) iterations offset

/-- `SmoothPolygonAction.smooth_geometry` (lines 268-288): router over the
method name; `'chaikin'` dispatches to the Chaikin routine and every other
method name falls through the `else` branch to the same Chaikin routine. -/
def smooth_geometry (smoothFn : Int → Nat → ℚ → Int) (g : Int)
    (method : String) (iterations : Nat) (offset : ℚ) : Int :=
  if method = "chaikin" then smooth_geometry_chaikin smoothFn g iterations offset
  else smooth_geometry_chaikin smoothFn g iterations offset

/-!  Message-template formatting (move_point_with_click.py lines 516-531).

`format_message_template` runs `template.format(**kwargs)` and catches only
`KeyError`.  The fragment of Python `str.format` it invokes is modelled for
templates made of literal text, doubled-brace escapes, and named replacement
fields; a field body is taken wholesale as the keyword name (conversion and
format-spec suffixes are outside the modelled fragment, and the well-formed
template predicate used by the theorems excludes them). -/

/-- The literal left-brace character. -/
def lbr : Char := Char.ofNat 123

/-- The literal right-brace character. -/
def rbr : Char := Char.ofNat 125

/-- Exceptions of the modelled `str.format` fragment: `keyError` (a
referenced keyword name is absent — Python `KeyError`, the one exception
`format_message_template` catches) and `otherError` (the rest: `ValueError`
for malformed brace syntax, `IndexError` for positional fields with no
positional arguments). -/
inductive FmtError
  | keyError
  | otherError
deriving Repr, DecidableEq

/-- One scanning step of Python `str.format` with keyword arguments only.
The second argument is `none` outside a replacement field and `some nm`
inside one, `nm` holding the field characters seen so far in reverse.
Outside a field: `\x7b\x7b` and `\x7d\x7d` emit a literal brace, a lone
closing brace or a trailing opening brace is a `ValueError`, an opening
brace starts a field.  At a field's closing brace: an empty or all-digit
name is a positional field (`IndexError` with `format(**kwargs)`); otherwise
the name is looked up, a missing name is a `KeyError`, and a present one
substitutes its value. -/
def fmtScanAux (lookup : String → Option String) :
    List Char → Option (List Char) → Except FmtError (List Char)
  | [], none => .ok []
  | [], some _ => .error .otherError
  | c :: cs, some nm =>
    if c = rbr then
      if nm.reverse = [] then .error .otherError
      else if (nm.reverse).all Char.isDigit then .error .otherError
      else
        match lookup (String.mk nm.reverse) with
        | none => .error .keyError
        | some v => (fmtScanAux lookup cs none).map (fun r => v.toList ++ r)
    else if c = lbr then .error .otherError
    else fmtScanAux lookup cs (some (c :: nm))
  | c :: cs, none =>
    if c = lbr then
      match cs with
      | d :: cs' =>
        if d = lbr then (fmtScanAux lookup cs' none).map (fun r => lbr :: r)
        else fmtScanAux lookup (d :: cs') (some [])
      | [] => .error .otherError
    else if c = rbr then
      match cs with
      | d :: cs' =>
        if d = rbr then (fmtScanAux lookup cs' none).map (fun r => rbr :: r)
        else .error .otherError
      | [] => .error .otherError
    else (fmtScanAux lookup cs none).map (fun r => c :: r)

/-- Characters admitted in a simple field name: letters and underscore (the
shapes the actions' templates use, e.g. `feature_id`, `layer_name`).  Digits
are excluded, so a simple name is never parsed as a positional index. -/
def simpleNameChar (c : Char) : Bool :=
  c.isAlpha || c = '_'

/-- Well-formedness of a template, following the same scan as `fmtScanAux`:
braces are balanced (with doubled-brace escapes) and every replacement field
is a nonempty simple name. -/
def wfTemplateAux : List Char → Option (List Char) → Bool
  | [], none => true
  | [], some _ => false
  | c :: cs, some nm =>
    if c = rbr then decide (nm.reverse ≠ []) && wfTemplateAux cs none
    else simpleNameChar c && wfTemplateAux cs (some (c :: nm))
  | c :: cs, none =>
    if c = lbr then
      match cs with
      | d :: cs' =>
        if d = lbr then wfTemplateAux cs' none
        else wfTemplateAux (d :: cs') (some [])
      | [] => false
    else if c = rbr then
      match cs with
      | d :: cs' => decide (d = rbr) && wfTemplateAux cs' none
      | [] => false
    else wfTemplateAux cs none

/-- The field names a template references, in scan order (same traversal as
`fmtScanAux`). -/
def refsAux : List Char → Option (List Char) → List String
  | [], _ => []
  | c :: cs, some nm =>
    if c = rbr then String.mk nm.reverse :: refsAux cs none
    else refsAux cs (some (c :: nm))
  | c :: cs, none =>
    if c = lbr then
      match cs with
      | d :: cs' =>
        if d = lbr then refsAux cs' none
        else refsAux (d :: cs') (some [])
      | [] => []
    else if c = rbr then
      match cs with
      | _d :: cs' => refsAux cs' none
      | [] => []
    else refsAux cs none

/-- `template.format(**kwargs)` on the modelled fragment. -/
def pyFormat (lookup : String → Option String) (t : String) :
    Except FmtError String :=
  (fmtScanAux lookup t.toList none).map String.mk

/-- Whether a template is well-formed for the modelled fragment. -/
def wfTemplate (t : String) : Bool :=
  wfTemplateAux t.toList none

/-- The keyword names a template references. -/
def templateRefs (t : String) : List String :=
  refsAux t.toList none

/-- `MovePointAction.format_message_template` (lines 516-531):
`try: return template.format(**kwargs); except KeyError: return template` —
only `KeyError` is caught; every other formatting exception propagates. -/
def format_message_template (lookup : String → Option String)
    (template : String) : Except FmtError String :=
  match pyFormat lookup template with
  | .ok r => .ok r
  | .error .keyError => .ok template
  | .error .otherError => .error .otherError

/-!  Theorems. -/

/-- C3 counterexample: `open_coordinates_in_map` is a registered action with
scope `universal`, yet its `supported_geometry_types` is not `{universal}`
(it declares the six concrete categories plus `canvas`,
open_coordinates_in_map.py line 33), so the scope/type-set invariant fails
on it. -/
theorem c3_scope_invariant_counterexample :
    openCoordinatesInMap ∈ allActions ∧
    openCoordinatesInMap.scope = "universal" ∧
    openCoordinatesInMap.supportedGeometryTypes ≠ ["universal"] ∧
    scopeTypeInvariant openCoordinatesInMap = false := by
  refine ⟨?_, rfl, ?_, rfl⟩
  · unfold allActions; simp
  · decide

/-- C3 amended: every registered action other than `open_coordinates_in_map`
satisfies the scope/type-set invariant, and even `open_coordinates_in_map`
satisfies the `supported_click_types` half (its click types are exactly
`{universal}`); only its `supported_geometry_types` breaks the invariant. -/
theorem c3_scope_invariant_amended :
    (∀ a ∈ allActions, a.actionId ≠ "open_coordinates_in_map" →
      scopeTypeInvariant a = true) ∧
    openCoordinatesInMap.supportedClickTypes = ["universal"] := by
  constructor
  · decide
  · rfl

/-- C3 amended witness: the invariant holds at the registered
`rotate_polygon` action. -/
theorem c3_scope_invariant_amended_witness :
    scopeTypeInvariant rotatePolygon = true :=
  c3_scope_invariant_amended.1 rotatePolygon (by decide) (by decide)

/-- C4 counterexample: the registered action `open_coordinates_in_map`
declares the tag `canvas` (open_coordinates_in_map.py line 33), which is
outside the fixed closed vocabulary, so not every tag declared by a
registered action belongs to the vocabulary, and this action is shipped and
instantiated for discovery rather than rejected. -/
theorem c4_vocabulary_counterexample :
    openCoordinatesInMap ∈ allActions ∧
    "canvas" ∈ declaredTags openCoordinatesInMap ∧
    geometryTagVocabulary.contains "canvas" = false ∧
    tagsInVocabulary openCoordinatesInMap = false := by
  refine ⟨?_, ?_, rfl, rfl⟩
  · unfold allActions; simp
  · decide

/-- C4 amended: every registered action other than `open_coordinates_in_map`
declares only tags of the fixed closed vocabulary; `open_coordinates_in_map`
additionally declares the out-of-vocabulary tag `canvas` in its
`supported_geometry_types` and is nevertheless instantiated for discovery
like every other action. -/
theorem c4_vocabulary_amended :
    ∀ a ∈ allActions, a.actionId ≠ "open_coordinates_in_map" →
      tagsInVocabulary a = true := by
  decide

/-- C4 amended witness: the registered `smooth_polygon` action declares only
vocabulary tags. -/
theorem c4_vocabulary_amended_witness :
    tagsInVocabulary smoothPolygon = true :=
  c4_vocabulary_amended smoothPolygon (by decide) (by decide)

theorem commitPhase_fields (env : ProviderEnv) (st : EditSettings)
    (s : LayerState) :
    ((commitPhase env st s).2).entered = false ∧
    ((commitPhase env st s).2).rolledBack = false ∧
    ((commitPhase env st s).1).editing = s.editing := by
  cases hc : env.commitOk <;>
    simp [commitPhase, commit_changes, hc] <;> split <;> simp

theorem rotateTryBody_fields (env : ProviderEnv) (st : EditSettings)
    (g : Int) (s : LayerState) :
    ((rotateTryBody env st g s).2).entered = false ∧
    ((rotateTryBody env st g s).1).editing = s.editing := by
  unfold rotateTryBody
  split
  · split <;> simp [rollback_changes]
  · cases hu : updateFeature env.updateOk g s with
    | mk ok s1 =>
      have hs1 : s1.editing = s.editing := by
        cases hu' : s.editing && env.updateOk <;>
          simp [updateFeature, hu'] at hu <;> simp [← hu.2]
      cases ok
      · simp [hs1]
      · simpa [hs1] using
          ⟨(commitPhase_fields env st s1).1,
           (commitPhase_fields env st s1).2.2.trans hs1⟩

theorem smoothTryBody_fields (env : ProviderEnv) (st : EditSettings)
    (sv cc : Bool) (g : Int) (s : LayerState) :
    ((smoothTryBody env st sv cc g s).2).entered = false ∧
    ((smoothTryBody env st sv cc g s).1).editing = s.editing := by
  unfold smoothTryBody
  split
  · split <;> simp [rollback_changes]
  · split
    · simp
    · split
      · cases ha : addFeature env.addOk g s with
        | mk ok s1 =>
          have hs1 : s1.editing = s.editing := by
            cases ha' : s.editing && env.addOk <;>
              simp [addFeature, ha'] at ha <;> simp [← ha.2]
          cases ok
          · simp [hs1]
          · simpa [hs1] using
              ⟨(commitPhase_fields env st s1).1,
               (commitPhase_fields env st s1).2.2.trans hs1⟩
      · cases hu : updateFeature env.updateOk g s with
        | mk ok s1 =>
          have hs1 : s1.editing = s.editing := by
            cases hu' : s.editing && env.updateOk <;>
              simp [updateFeature, hu'] at hu <;> simp [← hu.2]
          cases ok
          · simp [hs1]
          · simpa [hs1] using
              ⟨(commitPhase_fields env st s1).1,
               (commitPhase_fields env st s1).2.2.trans hs1⟩

theorem moveApplyTryBody_fields (env : ProviderEnv) (st : EditSettings)
    (cc : Bool) (g : Int) (s : LayerState) :
    ((moveApplyTryBody env st cc g s).2).entered = false ∧
    ((moveApplyTryBody env st cc g s).1).editing = s.editing := by
  unfold moveApplyTryBody
  split
  · split <;> simp [rollback_changes]
  · split
    · cases ha : addFeature env.addOk g s with
      | mk ok s1 =>
        have hs1 : s1.editing = s.editing := by
          cases ha' : s.editing && env.addOk <;>
            simp [addFeature, ha'] at ha <;> simp [← ha.2]
        cases ok
        · simp [hs1]
        · simpa [hs1] using
            ⟨(commitPhase_fields env st s1).1,
             (commitPhase_fields env st s1).2.2.trans hs1⟩
    · cases hu : updateFeature env.updateOk g s with
      | mk ok s1 =>
        have hs1 : s1.editing = s.editing := by
          cases hu' : s.editing && env.updateOk <;>
            simp [updateFeature, hu'] at hu <;> simp [← hu.2]
        cases ok
        · simp [hs1]
        · simpa [hs1] using
            ⟨(commitPhase_fields env st s1).1,
             (commitPhase_fields env st s1).2.2.trans hs1⟩

theorem runWithEditSession_exit_of_entered (st : EditSettings)
    (canEdit : Bool) (body : LayerState → LayerState × Trace)
    (s : LayerState) (hb : ∀ s', ((body s').2).entered = false)
    (h : ((runWithEditSession st canEdit body s).2).entered = true) :
    ((runWithEditSession st canEdit body s).2).exitReached = true := by
  unfold runWithEditSession at h ⊢
  cases hsm : st.handleEditMode with
  | false => rw [hsm] at h; simp [hb s] at h
  | true =>
    rw [hsm] at h
    rcases hm : handle_edit_mode canEdit s with ⟨r, s1⟩
    cases r with
    | none => simp [hm] at h
    | some p => obtain ⟨w, e⟩ := p; simp

theorem runWithEditSession_editing (st : EditSettings) (canEdit : Bool)
    (body : LayerState → LayerState × Trace) (s : LayerState)
    (hb : ∀ s', ((body s').1).editing = s'.editing)
    (hs : s.editing = true) :
    ((runWithEditSession st canEdit body s).1).editing = true := by
  unfold runWithEditSession
  split
  · simp only [handle_edit_mode, hs, if_true]
    simp [exit_edit_mode, hb s, hs]
  · rw [hb s, hs]

theorem rotateExecute_shape (env : ProviderEnv) (st : EditSettings)
    (cb : Bool) (dlg : DialogEnv) (ctx : ClickCtx) (g : Int)
    (s : LayerState) :
    rotateExecute env st cb dlg ctx g s =
      runWithEditSession st env.canEdit (rotateTryBody env st g) s ∨
    ((rotateExecute env st cb dlg ctx g s).1 = s ∧
      ((rotateExecute env st cb dlg ctx g s).2).entered = false) := by
  obtain ⟨df, cp⟩ := ctx
  cases df with
  | nil => right; simp [rotateExecute]
  | cons f rest =>
    unfold rotateExecute
    simp only
    split
    · right; simp
    · split
      · right; simp
      · split
        · right; simp
        · split
          · right; simp
          · left; rfl

theorem smoothExecute_shape (env : ProviderEnv) (st : EditSettings)
    (cb sv cc : Bool) (dlg : DialogEnv) (ctx : ClickCtx) (g : Int)
    (s : LayerState) :
    smoothExecute env st cb sv cc dlg ctx g s =
      runWithEditSession st env.canEdit
        (smoothTryBody env st sv cc g) s ∨
    ((smoothExecute env st cb sv cc dlg ctx g s).1 = s ∧
      ((smoothExecute env st cb sv cc dlg ctx g s).2).entered = false) := by
  obtain ⟨df, cp⟩ := ctx
  cases df with
  | nil => right; simp [smoothExecute]
  | cons f rest =>
    unfold smoothExecute
    simp only
    split
    · right; simp
    · split
      · right; simp
      · split
        · right; simp
        · split
          · right; simp
          · left; rfl

/-- C5: in each of the three mutating strategies, every terminating path on
which the wrapper entered edit mode reaches the `finally`-guarded
`exit_edit_mode` step — success, provider rejection, commit failure, caught
exception and the edit-phase early returns all included. -/
theorem c5_exit_reached_on_every_path :
    (∀ (env : ProviderEnv) (st : EditSettings) (cb : Bool) (dlg : DialogEnv)
      (ctx : ClickCtx) (g : Int) (s : LayerState),
      ((rotateExecute env st cb dlg ctx g s).2).entered = true →
      ((rotateExecute env st cb dlg ctx g s).2).exitReached = true) ∧
    (∀ (env : ProviderEnv) (st : EditSettings) (cb sv cc : Bool)
      (dlg : DialogEnv) (ctx : ClickCtx) (g : Int) (s : LayerState),
      ((smoothExecute env st cb sv cc dlg ctx g s).2).entered = true →
      ((smoothExecute env st cb sv cc dlg ctx g s).2).exitReached = true) ∧
    (∀ (env : ProviderEnv) (st : EditSettings) (cc : Bool) (g : Int)
      (s : LayerState),
      ((moveApply env st cc g s).2).entered = true →
      ((moveApply env st cc g s).2).exitReached = true) := by
  refine ⟨?_, ?_, ?_⟩
  · intro env st cb dlg ctx g s h
    rcases rotateExecute_shape env st cb dlg ctx g s with heq | ⟨_, hent⟩
    · rw [heq] at h ⊢
      exact runWithEditSession_exit_of_entered _ _ _ _
        (fun s' => (rotateTryBody_fields env st g s').1) h
    · rw [h] at hent; exact absurd hent (by simp)
  · intro env st cb sv cc dlg ctx g s h
    rcases smoothExecute_shape env st cb sv cc dlg ctx g s with heq | ⟨_, hent⟩
    · rw [heq] at h ⊢
      exact runWithEditSession_exit_of_entered _ _ _ _
        (fun s' => (smoothTryBody_fields env st sv cc g s').1) h
    · rw [h] at hent; exact absurd hent (by simp)
  · intro env st cc g s h
    exact runWithEditSession_exit_of_entered _ _ _ _
      (fun s' => (moveApplyTryBody_fields env st cc g s').1) h

/-- C5 witness: a run of the rotate strategy that entered edit mode (layer
initially not editable, provider allows editing) reaches the exit step. -/
theorem c5_exit_reached_on_every_path_witness :
    ((rotateExecute ⟨true, true, true, true, false⟩ ⟨true, true, true⟩ false
      ⟨true, true⟩ ⟨[⟨true, "polygon", 5⟩], true⟩ 7
      ⟨false, [5], [5]⟩).2).exitReached = true :=
  c5_exit_reached_on_every_path.1 ⟨true, true, true, true, false⟩
    ⟨true, true, true⟩ false ⟨true, true⟩ ⟨[⟨true, "polygon", 5⟩], true⟩ 7
    ⟨false, [5], [5]⟩ (by decide)

/-- C6: a layer that is already editable before a mutating strategy runs is
still editable after the strategy completes, on every path (the wrapper
records `entered_by_wrapper = false` and its exit step never closes a
session it did not open), and the wrapper's exit step is idempotent: a
second exit on the same record leaves the state exactly as after the
first. -/
theorem c6_preexisting_session_untouched :
    (∀ (env : ProviderEnv) (st : EditSettings) (cb : Bool) (dlg : DialogEnv)
      (ctx : ClickCtx) (g : Int) (s : LayerState), s.editing = true →
      ((rotateExecute env st cb dlg ctx g s).1).editing = true) ∧
    (∀ (env : ProviderEnv) (st : EditSettings) (cb sv cc : Bool)
      (dlg : DialogEnv) (ctx : ClickCtx) (g : Int) (s : LayerState),
      s.editing = true →
      ((smoothExecute env st cb sv cc dlg ctx g s).1).editing = true) ∧
    (∀ (env : ProviderEnv) (st : EditSettings) (cc : Bool) (g : Int)
      (s : LayerState), s.editing = true →
      ((moveApply env st cc g s).1).editing = true) ∧
    (∀ (entered : Bool) (s : LayerState),
      exit_edit_mode entered (exit_edit_mode entered s) =
        exit_edit_mode entered s) := by
  refine ⟨?_, ?_, ?_, ?_⟩
  · intro env st cb dlg ctx g s hs
    rcases rotateExecute_shape env st cb dlg ctx g s with heq | ⟨hst, _⟩
    · rw [heq]
      exact runWithEditSession_editing _ _ _ _
        (fun s' => (rotateTryBody_fields env st g s').2) hs
    · rw [hst]; exact hs
  · intro env st cb sv cc dlg ctx g s hs
    rcases smoothExecute_shape env st cb sv cc dlg ctx g s with heq | ⟨hst, _⟩
    · rw [heq]
      exact runWithEditSession_editing _ _ _ _
        (fun s' => (smoothTryBody_fields env st sv cc g s').2) hs
    · rw [hst]; exact hs
  · intro env st cc g s hs
    exact runWithEditSession_editing _ _ _ _
      (fun s' => (moveApplyTryBody_fields env st cc g s').2) hs
  · intro entered s
    cases entered <;> simp [exit_edit_mode]

/-- C6 witness: a successful rotate run on an already-editable layer (the
user's session) leaves the layer editable. -/
theorem c6_preexisting_session_untouched_witness :
    ((rotateExecute ⟨true, true, true, true, false⟩ ⟨true, true, true⟩ false
      ⟨true, true⟩ ⟨[⟨true, "polygon", 5⟩], true⟩ 7
      ⟨true, [5], [5]⟩).1).editing = true :=
  c6_preexisting_session_untouched.1 ⟨true, true, true, true, false⟩
    ⟨true, true, true⟩ false ⟨true, true⟩ ⟨[⟨true, "polygon", 5⟩], true⟩ 7
    ⟨true, [5], [5]⟩ rfl

/-- C7: each of the three feature-scope strategies cited, invoked with an
empty `detected_features` sequence, reports a user-facing error of the form
`No ... features found` and returns with the layer untouched and no
edit-session operation performed (no enter, no rollback, no exit). -/
theorem c7_empty_features_reports_and_stops :
    (∀ (env : ProviderEnv) (st : EditSettings) (cb cp : Bool)
      (dlg : DialogEnv) (g : Int) (s : LayerState),
      rotateExecute env st cb dlg ⟨[], cp⟩ g s =
        (s, ⟨false, false, false,
          ["No polygon features found at this location"]⟩)) ∧
    (∀ (env : ProviderEnv) (st : EditSettings) (cb sv cc cp : Bool)
      (dlg : DialogEnv) (g : Int) (s : LayerState),
      smoothExecute env st cb sv cc dlg ⟨[], cp⟩ g s =
        (s, ⟨false, false, false,
          ["No polygon features found at this location"]⟩)) ∧
    (∀ (cancelled cp : Bool),
      moveExecute ⟨[], cp⟩ cancelled =
        (false, ⟨false, false, false,
          ["No point features found at this location"]⟩)) ∧
    (∃ k : String, "No polygon features found at this location" =
      "No " ++ k ++ " features found at this location") ∧
    (∃ k : String, "No point features found at this location" =
      "No " ++ k ++ " features found at this location") := by
  refine ⟨fun _ _ _ _ _ _ _ => rfl, fun _ _ _ _ _ _ _ _ _ => rfl,
    fun _ _ => rfl, ⟨"polygon", rfl⟩, ⟨"point", rfl⟩⟩

/-- C1 counterexample: a rotate run on a layer that was not editable before,
in which the wrapper enters edit mode, `updateFeature` succeeds and the
commit fails (`commitOk = false`, all settings on including
`rollback_on_error`): the strategy returns from the commit-failure branch
without ever calling `rollback_changes` (`rolledBack = false` in the trace),
so "the strategy rolls back the pending edits" is false on this input; the
final state is reached through the wrapper's exit step instead. -/
theorem c1_commit_failure_counterexample :
    rotateExecute ⟨true, true, true, false, false⟩ ⟨true, true, true⟩ false
        ⟨true, true⟩ ⟨[⟨true, "polygon", 11⟩], true⟩ 12 ⟨false, [10], [10]⟩ =
      (⟨false, [10], [10]⟩,
       ⟨true, false, true, ["Failed to commit changes"]⟩) ∧
    (rotateExecute ⟨true, true, true, false, false⟩ ⟨true, true, true⟩ false
        ⟨true, true⟩ ⟨[⟨true, "polygon", 11⟩], true⟩ 12
        ⟨false, [10], [10]⟩).2.rolledBack = false := by
  refine ⟨by decide, by decide⟩

/-- C1 amended: on a not-previously-editable layer, when edit mode is
entered, the mutation succeeds and the commit fails, each of the three
strategies reports the commit failure and returns without calling
`rollback_changes`; the wrapper's `finally`-guarded exit step still runs,
closing the session it opened and discarding the uncommitted edits, so the
layer ends not editable with no changes persisted (final state equal to the
initial one). -/
theorem c1_commit_failure_amended :
    ∀ (rb cAcc cc : Bool) (rest : List FeatureG) (g gv : Int)
      (s : LayerState), s.editing = false → s.working = s.persisted →
      rotateExecute ⟨true, true, true, false, false⟩ ⟨true, true, rb⟩ false
          ⟨true, cAcc⟩ ⟨⟨true, "polygon", gv⟩ :: rest, true⟩ g s =
        (s, ⟨true, false, true, ["Failed to commit changes"]⟩) ∧
      smoothExecute ⟨true, true, true, false, false⟩ ⟨true, true, rb⟩ false
          true cc ⟨true, cAcc⟩ ⟨⟨true, "polygon", gv⟩ :: rest, true⟩ g s =
        (s, ⟨true, false, true, ["Failed to commit changes"]⟩) ∧
      moveApply ⟨true, true, true, false, false⟩ ⟨true, true, rb⟩ cc g s =
        (s, ⟨true, false, true, ["Failed to commit changes"]⟩) := by
  intro rb cAcc cc rest g gv s h1 h2
  obtain ⟨se, sp, sw⟩ := s
  simp only at h1 h2
  subst h1; subst h2
  refine ⟨?_, ?_, ?_⟩
  · simp [rotateExecute, runWithEditSession, handle_edit_mode, rotateTryBody,
      updateFeature, commitPhase, commit_changes, exit_edit_mode]
  · cases cc <;>
      simp [smoothExecute, runWithEditSession, handle_edit_mode,
        smoothTryBody, updateFeature, addFeature, commitPhase,
        commit_changes, exit_edit_mode]
  · cases cc <;>
      simp [moveApply, runWithEditSession, handle_edit_mode,
        moveApplyTryBody, updateFeature, addFeature, commitPhase,
        commit_changes, exit_edit_mode]

/-- C1 amended witness: concrete commit-failure run of the smooth strategy
(layer not editable before; update succeeds; commit refused). -/
theorem c1_commit_failure_amended_witness :
    smoothExecute ⟨true, true, true, false, false⟩ ⟨true, true, false⟩ false
        true false ⟨true, true⟩ ⟨[⟨true, "multipolygon", 3⟩], true⟩ 4
        ⟨false, [3], [3]⟩ =
      (⟨false, [3], [3]⟩,
       ⟨true, false, true, ["Failed to commit changes"]⟩) :=
  (c1_commit_failure_amended false true false [] 4 3 ⟨false, [3], [3]⟩ rfl
    rfl).2.1

/-- C2 counterexample: a rotate run in which `layer.updateFeature` is
rejected by the provider after edit mode has been entered: the strategy
shows the error and returns without calling `rollback_changes`
(`rolledBack = false`), so "the strategy rolls back via the wrapper" is
false on this input. -/
theorem c2_mutation_rejected_counterexample :
    rotateExecute ⟨true, false, false, true, false⟩ ⟨true, true, true⟩ false
        ⟨true, true⟩ ⟨[⟨true, "polygon", 11⟩], true⟩ 12 ⟨false, [10], [10]⟩ =
      (⟨false, [10], [10]⟩,
       ⟨true, false, true, ["Failed to update polygon geometry"]⟩) ∧
    (rotateExecute ⟨true, false, false, true, false⟩ ⟨true, true, true⟩ false
        ⟨true, true⟩ ⟨[⟨true, "polygon", 11⟩], true⟩ 12
        ⟨false, [10], [10]⟩).2.rolledBack = false := by
  refine ⟨by decide, by decide⟩

/-- C2 amended: when the provider rejects the geometry update
(`updateFeature` / `addFeature` returns failure) after edit mode has been
entered, each strategy reports the error and returns without calling
`rollback_changes`; since the rejected update staged nothing and the
wrapper's exit step closes only the session it itself opened, the layer is
left exactly as it was before the action began. -/
theorem c2_mutation_rejected_amended :
    ∀ (ac rb co cAcc : Bool) (rest : List FeatureG) (g gv : Int)
      (s : LayerState), wfLayer s →
      (rotateExecute ⟨true, false, false, co, false⟩ ⟨true, ac, rb⟩ false
          ⟨true, cAcc⟩ ⟨⟨true, "polygon", gv⟩ :: rest, true⟩ g s).1 = s ∧
      ((rotateExecute ⟨true, false, false, co, false⟩ ⟨true, ac, rb⟩ false
          ⟨true, cAcc⟩ ⟨⟨true, "polygon", gv⟩ :: rest, true⟩ g s).2).rolledBack
        = false ∧
      ((rotateExecute ⟨true, false, false, co, false⟩ ⟨true, ac, rb⟩ false
          ⟨true, cAcc⟩ ⟨⟨true, "polygon", gv⟩ :: rest, true⟩ g s).2).errors
        = ["Failed to update polygon geometry"] ∧
      smoothExecute ⟨true, false, false, co, false⟩ ⟨true, ac, rb⟩ false
          true false ⟨true, cAcc⟩ ⟨⟨true, "polygon", gv⟩ :: rest, true⟩ g s
        = (rotateExecute ⟨true, false, false, co, false⟩ ⟨true, ac, rb⟩ false
            ⟨true, cAcc⟩ ⟨⟨true, "polygon", gv⟩ :: rest, true⟩ g s) ∧
      ((smoothExecute ⟨true, false, false, co, false⟩ ⟨true, ac, rb⟩ false
          true true ⟨true, cAcc⟩ ⟨⟨true, "polygon", gv⟩ :: rest, true⟩ g
          s).1 = s ∧
        ((smoothExecute ⟨true, false, false, co, false⟩ ⟨true, ac, rb⟩ false
          true true ⟨true, cAcc⟩ ⟨⟨true, "polygon", gv⟩ :: rest, true⟩ g
          s).2).rolledBack = false ∧
        ((smoothExecute ⟨true, false, false, co, false⟩ ⟨true, ac, rb⟩ false
          true true ⟨true, cAcc⟩ ⟨⟨true, "polygon", gv⟩ :: rest, true⟩ g
          s).2).errors = ["Failed to create smoothed copy of feature"]) ∧
      ((moveApply ⟨true, false, false, co, false⟩ ⟨true, ac, rb⟩ false g
          s).1 = s ∧
        ((moveApply ⟨true, false, false, co, false⟩ ⟨true, ac, rb⟩ false g
          s).2).rolledBack = false ∧
        ((moveApply ⟨true, false, false, co, false⟩ ⟨true, ac, rb⟩ false g
          s).2).errors = ["Failed to update point geometry"]) ∧
      ((moveApply ⟨true, false, false, co, false⟩ ⟨true, ac, rb⟩ true g
          s).1 = s ∧
        ((moveApply ⟨true, false, false, co, false⟩ ⟨true, ac, rb⟩ true g
          s).2).rolledBack = false ∧
        ((moveApply ⟨true, false, false, co, false⟩ ⟨true, ac, rb⟩ true g
          s).2).errors = ["Failed to create copy of point"]) := by
  intro ac rb co cAcc rest g gv s hwf
  obtain ⟨se, sp, sw⟩ := s
  cases se with
  | false =>
    have hw : sw = sp := hwf rfl
    subst hw
    refine ⟨?_, ?_, ?_, ?_, ⟨?_, ?_, ?_⟩, ⟨?_, ?_, ?_⟩, ⟨?_, ?_, ?_⟩⟩ <;>
      simp [rotateExecute, smoothExecute, moveApply, runWithEditSession,
        handle_edit_mode, rotateTryBody, smoothTryBody, moveApplyTryBody,
        updateFeature, addFeature, commitPhase, commit_changes,
        exit_edit_mode]
  | true =>
    refine ⟨?_, ?_, ?_, ?_, ⟨?_, ?_, ?_⟩, ⟨?_, ?_, ?_⟩, ⟨?_, ?_, ?_⟩⟩ <;>
      simp [rotateExecute, smoothExecute, moveApply, runWithEditSession,
        handle_edit_mode, rotateTryBody, smoothTryBody, moveApplyTryBody,
        updateFeature, addFeature, commitPhase, commit_changes,
        exit_edit_mode]

/-- C2 amended witness: concrete rejected-update run of the rotate strategy
on a not-previously-editable layer leaves the state unchanged. -/
theorem c2_mutation_rejected_amended_witness :
    (rotateExecute ⟨true, false, false, true, false⟩ ⟨true, true, true⟩ false
        ⟨true, true⟩ ⟨[⟨true, "polygon", 21⟩], true⟩ 22
        ⟨false, [20], [20]⟩).1 = ⟨false, [20], [20]⟩ :=
  (c2_mutation_rejected_amended true true true true [] 22 21
    ⟨false, [20], [20]⟩ (by decide)).1

theorem closestSampleLoop_acc (d : PointQ → ℚ) :
    ∀ (l : List PointQ) (b : PointQ) (m : ℚ),
      ∃ b' m', closestSampleLoop d l (some (b, m)) = some (b', m') ∧
        (b' = b ∧ m' = m ∨ b' ∈ l ∧ m' = d b') ∧ m' ≤ m ∧
        ∀ q ∈ l, m' ≤ d q := by
  intro l
  induction l with
  | nil =>
    intro b m
    exact ⟨b, m, rfl, Or.inl ⟨rfl, rfl⟩, le_refl m, by simp⟩
  | cons q rest ih =>
    intro b m
    by_cases hq : d q < m
    · obtain ⟨b', m', heq, hsrc, hle, hall⟩ := ih q (d q)
      refine ⟨b', m', ?_, ?_, ?_, ?_⟩
      · simpa [closestSampleLoop, hq] using heq
      · rcases hsrc with ⟨hb, hm⟩ | ⟨hmem, hdb⟩
        · exact Or.inr ⟨by simp [hb], by rw [hm, hb]⟩
        · exact Or.inr ⟨List.mem_cons_of_mem q hmem, hdb⟩
      · exact le_trans hle (le_of_lt hq)
      · intro r hr
        rcases List.mem_cons.mp hr with hr | hr
        · rw [hr]; exact hle
        · exact hall r hr
    · obtain ⟨b', m', heq, hsrc, hle, hall⟩ := ih b m
      refine ⟨b', m', ?_, ?_, hle, ?_⟩
      · simpa [closestSampleLoop, hq] using heq
      · rcases hsrc with ⟨hb, hm⟩ | ⟨hmem, hdb⟩
        · exact Or.inl ⟨hb, hm⟩
        · exact Or.inr ⟨List.mem_cons_of_mem q hmem, hdb⟩
      · intro r hr
        rcases List.mem_cons.mp hr with hr | hr
        · rw [hr]; exact le_trans hle (not_lt.mp hq)
        · exact hall r hr

theorem closestSampleLoop_start (d : PointQ → ℚ) (x : PointQ)
    (xs : List PointQ) :
    ∃ b' m', closestSampleLoop d (x :: xs) none = some (b', m') ∧
      b' ∈ x :: xs ∧ m' = d b' ∧ ∀ q ∈ x :: xs, m' ≤ d q := by
  obtain ⟨b', m', heq, hsrc, hle, hall⟩ := closestSampleLoop_acc d xs x (d x)
  refine ⟨b', m', heq, ?_, ?_, ?_⟩
  · rcases hsrc with ⟨hb, _⟩ | ⟨hmem, _⟩
    · simp [hb]
    · exact List.mem_cons_of_mem x hmem
  · rcases hsrc with ⟨hb, hm⟩ | ⟨_, hdb⟩
    · rw [hm, hb]
    · exact hdb
  · intro r hr
    rcases List.mem_cons.mp hr with hr | hr
    · rw [hr]; exact hle
    · exact hall r hr

/-- C8: on a polygon with an exterior ring of positive length,
`_find_closest_point_on_boundary` returns the nearest (under the abstract
point distance `d`) of exactly 501 point samples taken at the equally spaced
arc-length parameters `i/500 · length` along the exterior ring — an
approximation by sampling, not an exact nearest-point computation — and
returns the centroid when the exterior ring is absent or its length is not
positive; the analogous inner loop of `_find_closest_line` takes exactly 101
samples along the line and returns the nearest of them. -/
theorem c8_boundary_sampling :
    (∀ (d : PointQ → PointQ → ℚ) (p : PointQ) (poly : PolyG) (ring : RingG),
      poly.exteriorRing = some ring → 0 < ring.length →
      findClosestPointOnBoundary d p poly ∈ boundarySamples ring ∧
      ∀ q ∈ boundarySamples ring,
        d p (findClosestPointOnBoundary d p poly) ≤ d p q) ∧
    (∀ ring : RingG, (boundarySamples ring).length = 501) ∧
    (∀ (d : PointQ → PointQ → ℚ) (p : PointQ) (poly : PolyG),
      poly.exteriorRing = none →
      findClosestPointOnBoundary d p poly = poly.centroid) ∧
    (∀ (d : PointQ → PointQ → ℚ) (p : PointQ) (poly : PolyG) (ring : RingG),
      poly.exteriorRing = some ring → ¬0 < ring.length →
      findClosestPointOnBoundary d p poly = poly.centroid) ∧
    (∀ g : LineG, (lineSamples g).length = 101) ∧
    (∀ (d : PointQ → PointQ → ℚ) (p : PointQ) (g : LineG), 0 < g.length →
      closestPointOnLine d p g ∈ lineSamples g ∧
      ∀ q ∈ lineSamples g, d p (closestPointOnLine d p g) ≤ d p q) := by
  have hb : ∀ ring : RingG, (boundarySamples ring).length = 501 := by
    intro ring
    unfold boundarySamples
    rw [List.length_map, List.length_range]
  have hl : ∀ g : LineG, (lineSamples g).length = 101 := by
    intro g
    unfold lineSamples
    rw [List.length_map, List.length_range]
  refine ⟨?_, hb, ?_, ?_, hl, ?_⟩
  · intro d p poly ring hring hlen
    obtain ⟨er, cen⟩ := poly
    simp only at hring
    subst hring
    show closestOnRing d p ring cen ∈ boundarySamples ring ∧
      ∀ q ∈ boundarySamples ring, d p (closestOnRing d p ring cen) ≤ d p q
    unfold closestOnRing
    rw [if_pos hlen]
    rcases hsam : boundarySamples ring with _ | ⟨x, xs⟩
    · exact absurd (hb ring) (by rw [hsam]; simp)
    · obtain ⟨b', m', heq, hmem, hm, hall⟩ :=
        closestSampleLoop_start (d p) x xs
      rw [heq]
      refine ⟨hmem, ?_⟩
      intro q hq
      have := hall q hq
      rw [hm] at this
      exact this
  · intro d p poly hnone
    obtain ⟨er, cen⟩ := poly
    simp only at hnone
    subst hnone
    rfl
  · intro d p poly ring hring hlen
    obtain ⟨er, cen⟩ := poly
    simp only at hring
    subst hring
    show closestOnRing d p ring cen = cen
    unfold closestOnRing
    rw [if_neg hlen]
  · intro d p g hlen
    unfold closestPointOnLine
    rw [if_pos hlen]
    rcases hsam : lineSamples g with _ | ⟨x, xs⟩
    · exact absurd (hl g) (by rw [hsam]; simp)
    · obtain ⟨b', m', heq, hmem, hm, hall⟩ :=
        closestSampleLoop_start (d p) x xs
      rw [heq]
      refine ⟨hmem, ?_⟩
      intro q hq
      have := hall q hq
      rw [hm] at this
      exact this

/-- C8 witness: on a concrete unit-length ring the returned point is one of
its 501 samples, and a concrete line's sample list has 101 entries. -/
theorem c8_boundary_sampling_witness :
    findClosestPointOnBoundary (fun a b => (a.1 - b.1) ^ 2 + (a.2 - b.2) ^ 2)
        (0, 0) ⟨some ⟨1, fun t => (t, 0)⟩, (5, 5)⟩ ∈
      boundarySamples ⟨1, fun t => (t, 0)⟩ ∧
    (lineSamples ⟨2, fun t => (0, t), (0, 0)⟩).length = 101 :=
  ⟨(c8_boundary_sampling.1 (fun a b => (a.1 - b.1) ^ 2 + (a.2 - b.2) ^ 2)
      (0, 0) ⟨some ⟨1, fun t => (t, 0)⟩, (5, 5)⟩ ⟨1, fun t => (t, 0)⟩ rfl
      (by norm_num)).1,
   c8_boundary_sampling.2.2.2.2.1 ⟨2, fun t => (0, t), (0, 0)⟩⟩

/-- C9: `smooth_geometry` returns the same result as
`smooth_geometry_chaikin` for every method string — an unrecognized
smoothing-method name falls through the `else` branch to the Chaikin
routine rather than producing an error — and the copy construction applied
to the input geometry is value-preserving, so the input geometry value is
not mutated. -/
theorem c9_smooth_router_falls_back_to_chaikin :
    ∀ (smoothFn : Int → Nat → ℚ → Int) (g : Int) (method : String)
      (iterations : Nat) (offset : ℚ),
      smooth_geometry smoothFn g method iterations offset =
        smooth_geometry_chaikin smoothFn g iterations offset ∧
      geomCopy g = g := by
  intro smoothFn g method iterations offset
  constructor
  · unfold smooth_geometry
    split <;> rfl
  · rfl

theorem simpleNameChar_not_digit (c : Char) (h : simpleNameChar c = true) :
    c.isDigit = false := by
  simp only [simpleNameChar, Bool.or_eq_true, decide_eq_true_eq] at h
  rcases h with h | h
  · unfold Char.isAlpha Char.isUpper Char.isLower at h
    unfold Char.isDigit
    simp only [Bool.or_eq_true, Bool.and_eq_true, decide_eq_true_eq, ge_iff_le] at h
    simp only [Bool.and_eq_true, decide_eq_true_eq, ge_iff_le, Bool.and_eq_false_iff,
      decide_eq_false_iff_not]
    rcases h with ⟨h1, h2⟩ | ⟨h1, h2⟩
    · exact Or.inr (fun hle => absurd (UInt32.le_trans h1 hle) (by decide))
    · exact Or.inr (fun hle => absurd (UInt32.le_trans h1 hle) (by decide))
  · subst h; decide

theorem all_simpleName_not_all_digit (l : List Char) (hne : l ≠ [])
    (h : l.all simpleNameChar = true) : l.all Char.isDigit = false := by
  rcases l with _ | ⟨c, cs⟩
  · exact absurd rfl hne
  · simp only [List.all_cons, Bool.and_eq_true] at h
    simp only [List.all_cons, Bool.and_eq_false_iff]
    exact Or.inl (simpleNameChar_not_digit c h.1)

theorem fmtScanAux_wf_spec (lookup : String → Option String) :
    ∀ (N : Nat) (l : List Char) (st : Option (List Char)),
      l.length ≤ N →
      (∀ nm, st = some nm → nm.all simpleNameChar = true) →
      wfTemplateAux l st = true →
      ((∃ n ∈ refsAux l st, lookup n = none) →
        fmtScanAux lookup l st = .error .keyError) ∧
      ((∀ n ∈ refsAux l st, (lookup n).isSome) →
        ∃ r, fmtScanAux lookup l st = .ok r) := by
  intro N
  induction N with
  | zero =>
    intro l st hlen hinv hwf
    have hl : l = [] := List.eq_nil_of_length_eq_zero (Nat.le_zero.mp hlen)
    subst hl
    cases st with
    | none =>
      exact ⟨fun ⟨n0, hn0, _⟩ => absurd hn0 (by simp [refsAux]),
        fun _ => ⟨[], rfl⟩⟩
    | some nm => exact absurd hwf (by simp [wfTemplateAux])
  | succ n ih =>
    intro l st hlen hinv hwf
    cases l with
    | nil =>
      cases st with
      | none =>
        exact ⟨fun ⟨n0, hn0, _⟩ => absurd hn0 (by simp [refsAux]),
          fun _ => ⟨[], rfl⟩⟩
      | some nm => exact absurd hwf (by simp [wfTemplateAux])
    | cons c cs =>
      have hcs : cs.length ≤ n := by
        simp only [List.length_cons] at hlen; omega
      cases st with
      | some nm =>
        by_cases hc : c = rbr
        · subst hc
          have hwfstep : wfTemplateAux (rbr :: cs) (some nm) =
              (decide (nm.reverse ≠ []) && wfTemplateAux cs none) := rfl
          rw [hwfstep, Bool.and_eq_true, decide_eq_true_eq] at hwf
          obtain ⟨hne, hwf'⟩ := hwf
          have hnm : nm.all simpleNameChar = true := hinv nm rfl
          have hnmrev : (nm.reverse).all simpleNameChar = true := by
            simpa [List.all_reverse] using hnm
          have hnd : (nm.reverse).all Char.isDigit = false :=
            all_simpleName_not_all_digit _ hne hnmrev
          have hscan : fmtScanAux lookup (rbr :: cs) (some nm) =
              match lookup (String.mk nm.reverse) with
              | none => .error .keyError
              | some v => (fmtScanAux lookup cs none).map
                  (fun r => v.toList ++ r) := by
            have h1 : fmtScanAux lookup (rbr :: cs) (some nm) =
                (if nm.reverse = [] then .error .otherError
                 else if (nm.reverse).all Char.isDigit then .error .otherError
                 else match lookup (String.mk nm.reverse) with
                   | none => .error .keyError
                   | some v => (fmtScanAux lookup cs none).map
                       (fun r => v.toList ++ r)) := rfl
            rw [h1, if_neg hne, if_neg (by simp [hnd])]
          have hrefs : refsAux (rbr :: cs) (some nm) =
              String.mk nm.reverse :: refsAux cs none := rfl
          obtain ⟨ih1, ih2⟩ := ih cs none hcs (by intro nm' h'; cases h') hwf'
          cases hlk : lookup (String.mk nm.reverse) with
          | none =>
            refine ⟨fun _ => by rw [hscan, hlk], fun hall => ?_⟩
            exact absurd (hall (String.mk nm.reverse)
                (by rw [hrefs]; exact List.mem_cons_self _ _))
              (by rw [hlk]; simp)
          | some v =>
            constructor
            · intro hex
              obtain ⟨n0, hn0, hn0none⟩ := hex
              rw [hrefs] at hn0
              rcases List.mem_cons.mp hn0 with heq | hmem
              · rw [heq] at hn0none; rw [hn0none] at hlk; cases hlk
              · have hkey := ih1 ⟨n0, hmem, hn0none⟩
                rw [hscan, hlk, hkey]; rfl
            · intro hall
              obtain ⟨r, hr⟩ := ih2 (fun n0 hn0 => hall n0
                (by rw [hrefs]; exact List.mem_cons_of_mem _ hn0))
              exact ⟨v.toList ++ r, by rw [hscan, hlk, hr]; rfl⟩
        · have hwfstep : wfTemplateAux (c :: cs) (some nm) =
              (if c = rbr then decide (nm.reverse ≠ []) && wfTemplateAux cs none
               else simpleNameChar c && wfTemplateAux cs (some (c :: nm))) := rfl
          rw [hwfstep, if_neg hc, Bool.and_eq_true] at hwf
          obtain ⟨hsc, hwf'⟩ := hwf
          have hcl : ¬c = lbr := by
            intro h; subst h; exact absurd hsc (by decide)
          have hscan : fmtScanAux lookup (c :: cs) (some nm) =
              fmtScanAux lookup cs (some (c :: nm)) := by
            have h1 : fmtScanAux lookup (c :: cs) (some nm) =
                (if c = rbr then
                  (if nm.reverse = [] then .error .otherError
                   else if (nm.reverse).all Char.isDigit then .error .otherError
                   else match lookup (String.mk nm.reverse) with
                     | none => .error .keyError
                     | some v => (fmtScanAux lookup cs none).map
                         (fun r => v.toList ++ r))
                else if c = lbr then .error .otherError
                else fmtScanAux lookup cs (some (c :: nm))) := rfl
            rw [h1, if_neg hc, if_neg hcl]
          have hrefs : refsAux (c :: cs) (some nm) =
              refsAux cs (some (c :: nm)) := by
            have h1 : refsAux (c :: cs) (some nm) =
                (if c = rbr then String.mk nm.reverse :: refsAux cs none
                 else refsAux cs (some (c :: nm))) := rfl
            rw [h1, if_neg hc]
          have hinv' : ∀ nm', some (c :: nm) = some nm' →
              nm'.all simpleNameChar = true := by
            intro nm' h'
            cases h'
            simp only [List.all_cons, Bool.and_eq_true]
            exact ⟨hsc, hinv nm rfl⟩
          obtain ⟨ih1, ih2⟩ := ih cs (some (c :: nm)) hcs hinv' hwf'
          rw [hscan, hrefs]
          exact ⟨ih1, ih2⟩
      | none =>
        cases cs with
        | nil =>
          by_cases hc : c = lbr
          · subst hc
            exact absurd hwf (by decide)
          · by_cases hc2 : c = rbr
            · subst hc2
              exact absurd hwf (by decide)
            · have hrefs : refsAux (c :: []) none = [] := by
                have h1 : refsAux (c :: []) none =
                    (if c = lbr then [] else if c = rbr then []
                     else refsAux [] none) := rfl
                rw [h1, if_neg hc, if_neg hc2]; rfl
              have hscan : fmtScanAux lookup (c :: []) none = .ok [c] := by
                have h1 : fmtScanAux lookup (c :: []) none =
                    (if c = lbr then .error .otherError
                     else if c = rbr then .error .otherError
                     else (fmtScanAux lookup [] none).map
                       (fun r => c :: r)) := rfl
                rw [h1, if_neg hc, if_neg hc2]; rfl
              refine ⟨fun hex => ?_, fun _ => ⟨[c], hscan⟩⟩
              obtain ⟨n0, hn0, _⟩ := hex
              rw [hrefs] at hn0
              cases hn0
        | cons d cs' =>
          have hcs' : cs'.length ≤ n := by
            simp only [List.length_cons] at hlen; omega
          by_cases hc : c = lbr
          · subst hc
            by_cases hd : d = lbr
            · subst hd
              have hwfstep : wfTemplateAux (lbr :: lbr :: cs') none =
                  wfTemplateAux cs' none := rfl
              rw [hwfstep] at hwf
              obtain ⟨ih1, ih2⟩ := ih cs' none hcs'
                (by intro nm' h'; cases h') hwf
              have hscan : fmtScanAux lookup (lbr :: lbr :: cs') none =
                  (fmtScanAux lookup cs' none).map (fun r => lbr :: r) := rfl
              have hrefs : refsAux (lbr :: lbr :: cs') none =
                  refsAux cs' none := rfl
              rw [hscan, hrefs]
              constructor
              · intro hex; rw [ih1 hex]; rfl
              · intro hall
                obtain ⟨r, hr⟩ := ih2 hall
                exact ⟨lbr :: r, by rw [hr]; rfl⟩
            · have hwfstep : wfTemplateAux (lbr :: d :: cs') none =
                  (if d = lbr then wfTemplateAux cs' none
                   else wfTemplateAux (d :: cs') (some [])) := rfl
              rw [hwfstep, if_neg hd] at hwf
              obtain ⟨ih1, ih2⟩ := ih (d :: cs') (some []) hcs
                (by intro nm' h'; cases h'; rfl) hwf
              have hscan : fmtScanAux lookup (lbr :: d :: cs') none =
                  fmtScanAux lookup (d :: cs') (some []) := by
                have h1 : fmtScanAux lookup (lbr :: d :: cs') none =
                    (if d = lbr then (fmtScanAux lookup cs' none).map
                        (fun r => lbr :: r)
                     else fmtScanAux lookup (d :: cs') (some [])) := rfl
                rw [h1, if_neg hd]
              have hrefs : refsAux (lbr :: d :: cs') none =
                  refsAux (d :: cs') (some []) := by
                have h1 : refsAux (lbr :: d :: cs') none =
                    (if d = lbr then refsAux cs' none
                     else refsAux (d :: cs') (some [])) := rfl
                rw [h1, if_neg hd]
              rw [hscan, hrefs]
              exact ⟨ih1, ih2⟩
          · by_cases hc2 : c = rbr
            · subst hc2
              have hwfstep : wfTemplateAux (rbr :: d :: cs') none =
                  (decide (d = rbr) && wfTemplateAux cs' none) := rfl
              rw [hwfstep, Bool.and_eq_true, decide_eq_true_eq] at hwf
              obtain ⟨hd, hwf'⟩ := hwf
              subst hd
              obtain ⟨ih1, ih2⟩ := ih cs' none hcs'
                (by intro nm' h'; cases h') hwf'
              have hscan : fmtScanAux lookup (rbr :: rbr :: cs') none =
                  (fmtScanAux lookup cs' none).map (fun r => rbr :: r) := rfl
              have hrefs : refsAux (rbr :: rbr :: cs') none =
                  refsAux cs' none := rfl
              rw [hscan, hrefs]
              constructor
              · intro hex; rw [ih1 hex]; rfl
              · intro hall
                obtain ⟨r, hr⟩ := ih2 hall
                exact ⟨rbr :: r, by rw [hr]; rfl⟩
            · have hwfstep : wfTemplateAux (c :: d :: cs') none =
                  (if c = lbr then
                    (if d = lbr then wfTemplateAux cs' none
                     else wfTemplateAux (d :: cs') (some []))
                   else if c = rbr then
                    (decide (d = rbr) && wfTemplateAux cs' none)
                   else wfTemplateAux (d :: cs') none) := rfl
              rw [hwfstep, if_neg hc, if_neg hc2] at hwf
              obtain ⟨ih1, ih2⟩ := ih (d :: cs') none hcs
                (by intro nm' h'; cases h') hwf
              have hscan : fmtScanAux lookup (c :: d :: cs') none =
                  (fmtScanAux lookup (d :: cs') none).map
                    (fun r => c :: r) := by
                have h1 : fmtScanAux lookup (c :: d :: cs') none =
                    (if c = lbr then
                      (if d = lbr then (fmtScanAux lookup cs' none).map
                          (fun r => lbr :: r)
                       else fmtScanAux lookup (d :: cs') (some []))
                     else if c = rbr then
                      (if d = rbr then (fmtScanAux lookup cs' none).map
                          (fun r => rbr :: r)
                       else .error .otherError)
                     else (fmtScanAux lookup (d :: cs') none).map
                       (fun r => c :: r)) := rfl
                rw [h1, if_neg hc, if_neg hc2]
              have hrefs : refsAux (c :: d :: cs') none =
                  refsAux (d :: cs') none := by
                have h1 : refsAux (c :: d :: cs') none =
                    (if c = lbr then
                      (if d = lbr then refsAux cs' none
                       else refsAux (d :: cs') (some []))
                     else if c = rbr then refsAux cs' none
                     else refsAux (d :: cs') none) := rfl
                rw [h1, if_neg hc, if_neg hc2]
              rw [hscan, hrefs]
              constructor
              · intro hex; rw [ih1 hex]; rfl
              · intro hall
                obtain ⟨r, hr⟩ := ih2 hall
                exact ⟨c :: r, by rw [hr]; rfl⟩

/-- C10 amended: on templates with well-formed brace syntax and simple named
replacement fields, `format_message_template` returns the `str.format`
substitution when every referenced name is present in the arguments, and
returns the original template unchanged when a referenced name is missing
(Python `KeyError`, the one exception the function catches); the
counterexample shows any other formatting exception propagates. -/
theorem c10_format_message_template_spec :
    ∀ (lookup : String → Option String) (t : String), wfTemplate t = true →
      ((∀ n ∈ templateRefs t, (lookup n).isSome) →
        ∃ r, format_message_template lookup t = .ok r) ∧
      ((∃ n ∈ templateRefs t, lookup n = none) →
        format_message_template lookup t = .ok t) := by
  intro lookup t hwf
  obtain ⟨h1, h2⟩ := fmtScanAux_wf_spec lookup t.toList.length t.toList none
    le_rfl (by intro nm h; cases h) hwf
  constructor
  · intro hall
    obtain ⟨r, hr⟩ := h2 hall
    refine ⟨String.mk r, ?_⟩
    unfold format_message_template pyFormat
    rw [hr]
    rfl
  · intro hex
    have hk := h1 hex
    unfold format_message_template pyFormat
    rw [hk]
    rfl

/-- C10 amended witness: a concrete template whose single field name is
absent from the arguments comes back unchanged. -/
theorem c10_format_message_template_spec_witness :
    format_message_template (fun _ => none)
        (String.mk [lbr, Char.ofNat 105, Char.ofNat 100, rbr]) =
      .ok (String.mk [lbr, Char.ofNat 105, Char.ofNat 100, rbr]) :=
  (c10_format_message_template_spec (fun _ => none)
      (String.mk [lbr, Char.ofNat 105, Char.ofNat 100, rbr]) (by decide)).2
    ⟨String.mk [Char.ofNat 105, Char.ofNat 100], by decide, rfl⟩

/-- C10 counterexample: on the template consisting of a single opening brace
— malformed brace syntax, Python `ValueError` — `format_message_template`
neither substitutes nor returns the template: the exception is outside the
`except KeyError` clause and propagates, so the claim's "for every template
string ... rather than raising an exception" is false. -/
theorem c10_malformed_template_counterexample :
    format_message_template (fun _ => none) (String.mk [lbr]) =
      .error .otherError := rfl

end RCA
